import Mathlib

/-!
Verification of the game-loop core of this repository: the Chromium T-Rex
runner (collision detection, obstacle spawning, speed ramp, localized-string
store) and the Canvas Snake game (movement, wraparound, spawning, direction
input).  Each definition is a shallow embedding of the corresponding
JavaScript function; JavaScript numbers are modelled as exact rationals
(`ℚ`) or integers (`ℤ`), and the on-page random number generator is
modelled as an explicit stream of draws.
-/

/-- JavaScript `Math.round`: rounds half-way cases toward positive infinity,
so `Math.round q = ⌊q + 1/2⌋`. -/
def jsRound (q : ℚ) : ℤ :=
  ⌊q + 1 / 2⌋

/-- `getRandomNum(min, max)` from the runner:
`Math.floor(Math.random() * (max - min + 1)) + min`, where `r` stands for the
`Math.random()` draw (a number in `[0, 1)`). -/
def getRandomNum (min max : ℤ) (r : ℚ) : ℤ :=
  ⌊r * ((max : ℚ) - (min : ℚ) + 1)⌋ + min

/-- `Obstacle.MAX_GAP_COEFFICIENT`. -/
def MAX_GAP_COEFFICIENT : ℚ := 3 / 2

/-- `Obstacle.prototype.getGap(gapCoefficient, speed)`:
`minGap = Math.round(this.width * speed + this.typeConfig.minGap * gapCoefficient)`,
`maxGap = Math.round(minGap * Obstacle.MAX_GAP_COEFFICIENT)`, then
`getRandomNum(minGap, maxGap)`.  `width` is the obstacle's width
(`typeConfig.width * size`), `typeMinGap` is `typeConfig.minGap`, and `r` is
the random draw consumed by `getRandomNum`. -/
def getGap (width typeMinGap gapCoefficient speed : ℚ) (r : ℚ) : ℤ :=
  let minGap := jsRound (width * speed + typeMinGap * gapCoefficient)
  let maxGap := jsRound ((minGap : ℚ) * MAX_GAP_COEFFICIENT)
  getRandomNum minGap maxGap r

/-- `CollisionBox(x, y, w, h)`: axis-aligned rectangle used by the runner. -/
structure CollisionBox where
  x : ℚ
  y : ℚ
  width : ℚ
  height : ℚ
deriving DecidableEq, Repr

/-- `boxCompare(tRexBox, obstacleBox)`: the axis-aligned bounding-box
overlap test from the runner. -/
def boxCompare (tRexBox obstacleBox : CollisionBox) : Bool :=
  decide (tRexBox.x < obstacleBox.x + obstacleBox.width) &&
  decide (tRexBox.x + tRexBox.width > obstacleBox.x) &&
  decide (tRexBox.y < obstacleBox.y + obstacleBox.height) &&
  decide (tRexBox.height + tRexBox.y > obstacleBox.y)

/-- `createAdjustedCollisionBox(box, adjustment)`: translate `box` by the
origin of `adjustment`. -/
def createAdjustedCollisionBox (box adjustment : CollisionBox) : CollisionBox :=
  ⟨box.x + adjustment.x, box.y + adjustment.y, box.width, box.height⟩

/-- `Trex.collisionBoxes.DUCKING`. -/
def trexCollisionBoxesDucking : List CollisionBox :=
  [⟨1, 18, 55, 25⟩]

/-- `Trex.collisionBoxes.RUNNING`. -/
def trexCollisionBoxesRunning : List CollisionBox :=
  [⟨22, 0, 17, 16⟩, ⟨1, 18, 30, 9⟩, ⟨10, 35, 14, 8⟩,
   ⟨1, 24, 29, 5⟩, ⟨5, 30, 21, 4⟩, ⟨9, 34, 15, 4⟩]

/-- The fields of the `Trex` instance read by `checkForCollision`:
`xPos`, `yPos`, `ducking`, and the `config.WIDTH` / `config.HEIGHT`
configuration values. -/
structure TrexState where
  xPos : ℚ
  yPos : ℚ
  width : ℚ
  height : ℚ
  ducking : Bool

/-- The fields of the `Obstacle` instance read by `checkForCollision`:
`xPos`, `yPos`, `typeConfig.width`, `typeConfig.height`, `size`, and the
per-type `collisionBoxes`. -/
structure ObstacleState where
  xPos : ℚ
  yPos : ℚ
  typeWidth : ℚ
  typeHeight : ℚ
  size : ℚ
  collisionBoxes : List CollisionBox

/-- The outer t-rex bounding box built by `checkForCollision`:
`new CollisionBox(tRex.xPos + 1, tRex.yPos + 1, tRex.config.WIDTH - 2,
tRex.config.HEIGHT - 2)` (inset by the 1 pixel white border). -/
def trexOuterBox (tRex : TrexState) : CollisionBox :=
  ⟨tRex.xPos + 1, tRex.yPos + 1, tRex.width - 2, tRex.height - 2⟩

/-- The outer obstacle bounding box built by `checkForCollision`:
`new CollisionBox(obstacle.xPos + 1, obstacle.yPos + 1,
obstacle.typeConfig.width * obstacle.size - 2, obstacle.typeConfig.height - 2)`. -/
def obstacleOuterBox (obstacle : ObstacleState) : CollisionBox :=
  ⟨obstacle.xPos + 1, obstacle.yPos + 1,
   obstacle.typeWidth * obstacle.size - 2, obstacle.typeHeight - 2⟩

/-- The t-rex sub-box set chosen by `checkForCollision`: the alt-game-mode
sprite boxes when alt game mode is enabled, otherwise the ducking or running
pose boxes. -/
def trexSubBoxes (altGameModeEnabled : Bool) (altCollisionBoxes : List CollisionBox)
    (tRex : TrexState) : List CollisionBox :=
  if altGameModeEnabled then altCollisionBoxes
  else if tRex.ducking then trexCollisionBoxesDucking
  else trexCollisionBoxesRunning

/-- `checkForCollision(obstacle, tRex)`: coarse outer-box test, then the
nested loop over the t-rex sub-boxes and the obstacle sub-boxes, each
translated by its owner's outer box, returning the first crashed pair
(`undefined`, i.e. `none`, when there is no collision). -/
def checkForCollision (obstacle : ObstacleState) (tRex : TrexState)
    (altGameModeEnabled : Bool) (altCollisionBoxes : List CollisionBox) :
    Option (CollisionBox × CollisionBox) :=
  let tRexBox := trexOuterBox tRex
  let obstacleBox := obstacleOuterBox obstacle
  if boxCompare tRexBox obstacleBox then
    (trexSubBoxes altGameModeEnabled altCollisionBoxes tRex).findSome? fun tBox =>
      obstacle.collisionBoxes.findSome? fun oBox =>
        let adjTrexBox := createAdjustedCollisionBox tBox tRexBox
        let adjObstacleBox := createAdjustedCollisionBox oBox obstacleBox
        if boxCompare adjTrexBox adjObstacleBox then some (adjTrexBox, adjObstacleBox)
        else none
  else none

/-- A Snake grid cell. -/
abbrev Cell := ℤ × ℤ

/-- JavaScript `%` (remainder with the sign of the dividend), as used by
`wrapAround`. -/
def jsMod (a b : ℤ) : ℤ :=
  Int.tmod a b

/-- `wrapAround(head)` from the Snake game:
`head.x = (head.x + tileCount) % tileCount` and likewise for `y`. -/
def wrapAround (tileCount : ℤ) (head : Cell) : Cell :=
  (jsMod (head.1 + tileCount) tileCount, jsMod (head.2 + tileCount) tileCount)

/-- The Snake game's global state: `snake`, `food`, `obstacles`, direction
`(dx, dy)`, `score`, `gameSpeed` and the three mode flags. -/
structure SnakeState where
  snake : List Cell
  food : Cell
  obstacles : List Cell
  dx : ℤ
  dy : ℤ
  score : ℤ
  gameSpeed : ℚ
  isFastMode : Bool
  isSlowMode : Bool
  isWrapAround : Bool
deriving DecidableEq, Repr

/-- One draw of a random cell:
`{ x: Math.floor(Math.random() * tileCount), y: Math.floor(Math.random() * tileCount) }`.
The raw stream value is reduced into the grid range exactly as the
multiply-and-floor does. -/
def sampleCell (tileCount : ℤ) (raw : Cell) : Cell :=
  (raw.1.emod tileCount, raw.2.emod tileCount)

/-- A do/while-style rejection-sampling loop: draw a cell from the stream,
then keep redrawing while the predicate `bad` holds.  `fuel` bounds the
number of draws (the source loop is unbounded); on success it returns the
accepted cell together with the next unused stream index. -/
def rejectSample (tileCount : ℤ) (rnd : ℕ → Cell) (bad : Cell → Bool) :
    ℕ → ℕ → Option (Cell × ℕ)
  | 0, _ => none
  | fuel + 1, k =>
    let c := sampleCell tileCount (rnd k)
    if bad c then rejectSample tileCount rnd bad fuel (k + 1)
    else some (c, k + 1)

/-- The rejection predicate of `generateObstacles`: the candidate is bad when
it lies on the snake, on the food, or on an already generated obstacle. -/
def obstacleBad (snake : List Cell) (food : Cell) (obstacles : List Cell) (c : Cell) : Bool :=
  snake.any (fun segment => decide (segment = c)) ||
  decide (c = food) ||
  obstacles.any (fun obs => decide (obs = c))

/-- The `for` loop of `generateObstacles`, generating `n` more obstacles by
rejection sampling and accumulating them in `acc`. -/
def genObstaclesFrom (tileCount : ℤ) (rnd : ℕ → Cell) (snake : List Cell) (food : Cell)
    (fuel : ℕ) : ℕ → ℕ → List Cell → Option (List Cell × ℕ)
  | 0, k, acc => some (acc, k)
  | n + 1, k, acc =>
    match rejectSample tileCount rnd (obstacleBad snake food acc) fuel k with
    | none => none
    | some (c, k') => genObstaclesFrom tileCount rnd snake food fuel n k' (acc ++ [c])

/-- `generateObstacles()`: resets the obstacle list and generates 5 obstacles,
each avoiding the snake, the food, and the obstacles generated so far. -/
def generateObstacles (tileCount : ℤ) (rnd : ℕ → Cell) (snake : List Cell) (food : Cell)
    (fuel : ℕ) (k : ℕ) : Option (List Cell × ℕ) :=
  genObstaclesFrom tileCount rnd snake food fuel 5 k []

/-- The outcome of one `drawGame` tick.  `error` is a thrown JavaScript
exception (the tick aborts with every global left as it was); `gameOverAt`
records the snake as it stood when `gameOver()` was entered together with
the reset state `gameOver()` produces; `ok` is a completed tick. -/
inductive SnakeTick where
  | error : SnakeTick
  | gameOverAt (snakeAtDetection : List Cell) (post : SnakeState) : SnakeTick
  | ok (post : SnakeState) : SnakeTick
deriving DecidableEq, Repr

/-- `gameOver()`: resets the snake, direction, score, speed and mode flags,
places the new food by a single unchecked draw, and calls
`generateObstacles()` (whose rejection sampling avoids the reset snake and
the new food).  `snakeAtDetection` is the snake as it stood at the call. -/
def gameOverStep (tileCount : ℤ) (fuel : ℕ) (rnd : ℕ → Cell) (k : ℕ)
    (snakeAtDetection : List Cell) : SnakeTick :=
  let resetSnake : List Cell := [(10, 10)]
  let newFood := sampleCell tileCount (rnd k)
  match generateObstacles tileCount rnd resetSnake newFood fuel (k + 1) with
  | none => SnakeTick.error
  | some (obs, _) =>
    SnakeTick.gameOverAt snakeAtDetection
      { snake := resetSnake, food := newFood, obstacles := obs,
        dx := 0, dy := 0, score := 0, gameSpeed := 100,
        isFastMode := false, isSlowMode := false, isWrapAround := false }

/-- `updateGameSpeed()`: 50 in fast mode, 200 in slow mode, 100 otherwise. -/
def updateGameSpeed (isFastMode isSlowMode : Bool) : ℚ :=
  if isFastMode then 50
  else if isSlowMode then 200
  else 100

/-- One `drawGame()` tick (state changes only; drawing is external).
The new head is `const head = { x: snake[0].x + dx, y: snake[0].y + dy }`.
When the head is out of bounds and wraparound is enabled, the source executes
`head = wrapAround(head)` — an assignment to a `const` binding, which throws
a `TypeError`, so the tick aborts (`SnakeTick.error`).  Otherwise the tick
follows the source: out of bounds → `gameOver()`; obstacle hit →
`gameOver()`; move (`unshift`, and `pop` unless the food was eaten; eating
respawns the food by rejection sampling and speeds the game up); finally the
self-intersection check over `snake[1..]` → `gameOver()`. -/
def snakeTick (tileCount : ℤ) (fuel : ℕ) (rnd : ℕ → Cell) (k : ℕ) (st : SnakeState) :
    SnakeTick :=
  match st.snake with
  | [] => SnakeTick.error
  | h0 :: _ =>
    let head : Cell := (h0.1 + st.dx, h0.2 + st.dy)
    if head.1 < 0 || head.1 ≥ tileCount || head.2 < 0 || head.2 ≥ tileCount then
      if st.isWrapAround then SnakeTick.error
      else gameOverStep tileCount fuel rnd k st.snake
    else if st.obstacles.any (fun obstacle => decide (obstacle = head)) then
      gameOverStep tileCount fuel rnd k st.snake
    else
      let movedSnake := head :: st.snake
      if head = st.food then
        match rejectSample tileCount rnd
            (fun c => movedSnake.any (fun segment => decide (segment = c)) ||
              st.obstacles.any (fun obstacle => decide (obstacle = c))) fuel k with
        | none => SnakeTick.error
        | some (newFood, _) =>
          let newGameSpeed := updateGameSpeed st.isFastMode st.isSlowMode
          if (movedSnake.drop 1).any (fun segment => decide (segment = head)) then
            gameOverStep tileCount fuel rnd k movedSnake
          else
            SnakeTick.ok { st with
              snake := movedSnake
              food := newFood
              score := st.score + 10
              gameSpeed := newGameSpeed }
      else
        let poppedSnake := movedSnake.dropLast
        if (poppedSnake.drop 1).any (fun segment => decide (segment = head)) then
          gameOverStep tileCount fuel rnd k poppedSnake
        else
          SnakeTick.ok { st with snake := poppedSnake }

/-- Observation on a tick outcome: whether the post-state's food lies on
the post-state's snake. -/
def tickFoodOnSnake : SnakeTick → Bool
  | SnakeTick.gameOverAt _ post => post.snake.any (fun segment => decide (segment = post.food))
  | SnakeTick.ok post => post.snake.any (fun segment => decide (segment = post.food))
  | SnakeTick.error => false

/-- `changeDirection(event)`: the four arrow-key branches (mode-toggle keys
do not touch the direction).  Returns the new `(dx, dy)`. -/
def changeDirection (dx dy : ℤ) (keyPressed : ℤ) : ℤ × ℤ :=
  let p1 := if keyPressed = 37 ∧ ¬dx = 1 then ((-1 : ℤ), (0 : ℤ)) else (dx, dy)
  let p2 := if keyPressed = 38 ∧ ¬dy = 1 then ((0 : ℤ), (-1 : ℤ)) else p1
  let p3 := if keyPressed = 39 ∧ ¬dx = -1 then ((1 : ℤ), (0 : ℤ)) else p2
  if keyPressed = 40 ∧ ¬dy = -1 then ((0 : ℤ), (1 : ℤ)) else p3

/-- The fields of an `ObstacleType` entry read by `Horizon.addNewObstacle`
and `Obstacle.getGap`. -/
structure ObstacleTypeConfig where
  type : String
  width : ℚ
  minGap : ℚ
  minSpeed : ℚ
deriving DecidableEq, Repr

/-- The `OBSTACLES` table of `spriteDefinitionByType.original` (the fields
used by the spawner). -/
def obstacleTypes : List ObstacleTypeConfig :=
  [⟨"CACTUS_SMALL", 17, 120, 0⟩,
   ⟨"CACTUS_LARGE", 25, 120, 0⟩,
   ⟨"PTERODACTYL", 46, 150, 17 / 2⟩,
   ⟨"COLLECTABLE", 31, 9999, 0⟩]

/-- `Runner.config.MAX_OBSTACLE_DUPLICATION`. -/
def MAX_OBSTACLE_DUPLICATION : ℕ := 2

/-- The horizon fields touched by the spawner: the active obstacle list
(recorded as the chosen type configurations) and the bounded
`obstacleHistory` buffer of recent type names, newest first. -/
structure HorizonState where
  obstacles : List ObstacleTypeConfig
  obstacleHistory : List String
deriving DecidableEq, Repr

/-- `Horizon.prototype.duplicateObstacleCheck(nextObstacleType)`: walks the
history, counting a run of entries equal to the candidate and resetting the
count on a mismatch, and reports whether the final count reaches
`MAX_OBSTACLE_DUPLICATION`. -/
def duplicateObstacleCheck (st : HorizonState) (nextObstacleType : String) : Bool :=
  let duplicateCount := st.obstacleHistory.foldl
    (fun duplicateCount t => if t = nextObstacleType then duplicateCount + 1 else 0) 0
  decide (duplicateCount ≥ MAX_OBSTACLE_DUPLICATION)

/-- The `obstacleCount` computed at the top of `Horizon.addNewObstacle`:
`Obstacle.types.length - 1` unless the last type is `COLLECTABLE` and alt
game mode is neither enabled nor active, in which case
`Obstacle.types.length - 2` (the condition
`isAltGameModeEnabled() && !altGameModeActive || altGameModeActive` reduces
to `isAltGameModeEnabled() || altGameModeActive`). -/
def obstacleCountOf (types : List ObstacleTypeConfig) (altEnabled altActive : Bool) : ℕ :=
  let lastIsCollectable := decide (((types.getLast?).map (·.type)).getD "" = "COLLECTABLE")
  if !lastIsCollectable || altEnabled || altActive then types.length - 1
  else types.length - 2

/-- `Horizon.prototype.addNewObstacle(currentSpeed)`: picks a random type
index in `[0, obstacleCount]`, rejects the candidate when the duplicate-run
check fires (with more than one type available) or when `currentSpeed` is
below the type's `minSpeed`, and recurses on rejection; on acceptance it
pushes the obstacle and records the type in the history, truncated to
`MAX_OBSTACLE_DUPLICATION` entries.  The unbounded recursion is run on
`fuel` (`none` = the source recursion has not returned within `fuel`
attempts), and `rnd k % (obstacleCount + 1)` stands for
`getRandomNum(0, obstacleCount)`. -/
def addNewObstacle (types : List ObstacleTypeConfig) (altEnabled altActive : Bool)
    (currentSpeed : ℚ) (rnd : ℕ → ℕ) :
    ℕ → ℕ → HorizonState → Option (HorizonState × String × ℕ)
  | 0, _, _ => none
  | fuel + 1, k, st =>
    let obstacleCount := obstacleCountOf types altEnabled altActive
    let obstacleTypeIndex := if obstacleCount > 0 then rnd k % (obstacleCount + 1) else 0
    match types[obstacleTypeIndex]? with
    | none => none
    | some obstacleType =>
      if (decide (obstacleCount > 0) && duplicateObstacleCheck st obstacleType.type) ||
          decide (currentSpeed < obstacleType.minSpeed) then
        addNewObstacle types altEnabled altActive currentSpeed rnd fuel (k + 1) st
      else
        let history1 := obstacleType.type :: st.obstacleHistory
        let history2 := if history1.length > 1 then history1.take MAX_OBSTACLE_DUPLICATION
          else history1
        some ({ obstacles := st.obstacles ++ [obstacleType], obstacleHistory := history2 },
          obstacleType.type, k + 1)

/-- The sequence of obstacle type names produced by `n` successive calls of
`Horizon.addNewObstacle` (each spawn threading the horizon state and the
random stream; an exhausted spawn ends the sequence). -/
def spawnSequence (types : List ObstacleTypeConfig) (altEnabled altActive : Bool)
    (currentSpeed : ℚ) (rnd : ℕ → ℕ) (fuel : ℕ) :
    ℕ → ℕ → HorizonState → List String
  | 0, _, _ => []
  | n + 1, k, st =>
    match addNewObstacle types altEnabled altActive currentSpeed rnd fuel k st with
    | none => []
    | some (st', t, k') => t :: spawnSequence types altEnabled altActive currentSpeed rnd fuel n k' st'

/-- Whether a list contains three equal consecutive entries. -/
def hasTripleRun : List String → Bool
  | a :: b :: c :: rest => (decide (a = b) && decide (b = c)) || hasTripleRun (b :: c :: rest)
  | _ => false

/-- `this.msPerFrame = 1000 / FPS` with `FPS = 60`. -/
def runnerMsPerFrame : ℚ := 1000 / 60

/-- `Runner.normalConfig.ACCELERATION`. -/
def ACCELERATION : ℚ := 1 / 1000

/-- `Runner.normalConfig.MAX_SPEED`. -/
def MAX_SPEED : ℚ := 13

/-- `Runner.config.SPEED` (also `Runner.normalConfig.SPEED`): the starting
speed. -/
def INITIAL_SPEED : ℚ := 6

/-- The runner fields touched by the non-collision branch of
`Runner.prototype.update`. -/
structure RunnerTickState where
  distanceRan : ℚ
  currentSpeed : ℚ
deriving DecidableEq, Repr

/-- The `if (!collision)` branch of `Runner.prototype.update`:
`this.distanceRan += this.currentSpeed * deltaTime / this.msPerFrame`, then
`if (this.currentSpeed < this.config.MAX_SPEED) this.currentSpeed += this.config.ACCELERATION`. -/
def runnerUpdateNoCollision (st : RunnerTickState) (deltaTime : ℚ) : RunnerTickState :=
  let distanceRan := st.distanceRan + st.currentSpeed * deltaTime / runnerMsPerFrame
  let currentSpeed :=
    if st.currentSpeed < MAX_SPEED then st.currentSpeed + ACCELERATION
    else st.currentSpeed
  ⟨distanceRan, currentSpeed⟩

/-- `n` collision-free ticks of the game loop, each of duration `deltaTime`,
starting from distance 0 and the initial speed. -/
def runnerTicks (deltaTime : ℚ) : ℕ → RunnerTickState
  | 0 => ⟨0, INITIAL_SPEED⟩
  | n + 1 => runnerUpdateNoCollision (runnerTicks deltaTime n) deltaTime

/-- `LoadTimeData`: the backing dictionary is `null` until set; modelled as
an association list of key/value pairs (`data_[id]` is `undefined` exactly
when `id` has no entry). -/
structure LoadTimeData (V : Type) where
  data_ : Option (List (String × V))

/-- `set data(value)`: `assert(!this.data_, 'Re-setting data.')` then
`this.data_ = value`.  Returns the state after the call together with the
thrown assertion message, if any; when the assertion throws, the assignment
is never reached, so the state is returned unchanged. -/
def LoadTimeData.setData {V : Type} (ltd : LoadTimeData V) (value : List (String × V)) :
    LoadTimeData V × Option String :=
  match ltd.data_ with
  | some _ => (ltd, some "Re-setting data.")
  | none => ({ data_ := some value }, none)

/-- `getValue(id)`: asserts that the backing data is set, fetches
`this.data_[id]`, asserts the value is not `undefined`, and returns it. -/
def LoadTimeData.getValue {V : Type} (ltd : LoadTimeData V) (id : String) :
    Except String V :=
  match ltd.data_ with
  | none => Except.error "No data. Did you remember to include strings.js?"
  | some d =>
    match d.lookup id with
    | none => Except.error ("Could not find value for " ++ id)
    | some value => Except.ok value

/-! ## Theorems -/

theorem getRandomNum_bounds (min max : ℤ) (r : ℚ) (hminmax : min ≤ max)
    (h0 : 0 ≤ r) (h1 : r < 1) :
    min ≤ getRandomNum min max r ∧ getRandomNum min max r ≤ max := by
  unfold getRandomNum
  have hn : (0 : ℚ) < (max : ℚ) - (min : ℚ) + 1 := by
    have : (min : ℚ) ≤ (max : ℚ) := by exact_mod_cast hminmax
    linarith
  constructor
  · have hfloor : (0 : ℤ) ≤ ⌊r * ((max : ℚ) - (min : ℚ) + 1)⌋ := by
      apply Int.floor_nonneg.mpr
      positivity
    omega
  · have hlt : r * ((max : ℚ) - (min : ℚ) + 1) < (max : ℚ) - (min : ℚ) + 1 := by
      nlinarith
    have hfloor : ⌊r * ((max : ℚ) - (min : ℚ) + 1)⌋ < max - min + 1 := by
      apply Int.floor_lt.mpr
      push_cast
      linarith
    omega

/-- C2 counterexample: with the reachable obstacle parameters
`width = 17`, `type.minGap = 120`, `gapCoefficient = 0.6` and current speed
`6.07`, the computed `minGap` is the odd number 175, so
`maxGap = round(175 * 1.5) = 263` exceeds `1.5 * minGap = 262.5`; the random
draw `r = 88/89` yields `gap = 263 > 1.5 * minGap`, refuting the claimed
upper bound `gap ≤ 1.5 * minGap`. -/
theorem getGap_exceeds_claimed_bound :
    (0 : ℚ) ≤ 88 / 89 ∧ (88 / 89 : ℚ) < 1 ∧
    jsRound (17 * (607 / 100) + 120 * (3 / 5)) = 175 ∧
    getGap 17 120 (3 / 5) (607 / 100) (88 / 89) = 263 ∧
    ¬((getGap 17 120 (3 / 5) (607 / 100) (88 / 89) : ℚ) ≤
        (3 / 2) * (jsRound (17 * (607 / 100) + 120 * (3 / 5)) : ℚ)) := by
  refine ⟨by norm_num, by norm_num, ?_, ?_, ?_⟩
  · norm_num [jsRound]
  · norm_num [getGap, jsRound, getRandomNum, MAX_GAP_COEFFICIENT]
  · norm_num [getGap, jsRound, getRandomNum, MAX_GAP_COEFFICIENT]

/-- C2 (amended): for every obstacle gap computed at nonnegative
`width * speed + type.minGap * gapCoefficient`, the gap is an integer in
`[minGap, maxGap]` with `minGap = round(width * speed + type.minGap * gapCoefficient)`
and `maxGap = round(minGap * 1.5)`; consequently
`minGap ≤ gap ≤ 1.5 * minGap + 1/2` (the claimed bound `1.5 * minGap` can be
exceeded by the rounding of `maxGap`, by at most `1/2`). -/
theorem getGap_range (width typeMinGap gapCoefficient speed r : ℚ)
    (h0 : 0 ≤ r) (h1 : r < 1)
    (hnn : 0 ≤ width * speed + typeMinGap * gapCoefficient) :
    jsRound (width * speed + typeMinGap * gapCoefficient) ≤
      getGap width typeMinGap gapCoefficient speed r ∧
    getGap width typeMinGap gapCoefficient speed r ≤
      jsRound ((jsRound (width * speed + typeMinGap * gapCoefficient) : ℚ) *
        MAX_GAP_COEFFICIENT) ∧
    (getGap width typeMinGap gapCoefficient speed r : ℚ) ≤
      (3 / 2) * (jsRound (width * speed + typeMinGap * gapCoefficient) : ℚ) + 1 / 2 := by
  have hminGap0 : (0 : ℤ) ≤ jsRound (width * speed + typeMinGap * gapCoefficient) := by
    unfold jsRound
    apply Int.floor_nonneg.mpr
    linarith
  set m := jsRound (width * speed + typeMinGap * gapCoefficient) with hm
  have hmaxGap : m ≤ jsRound ((m : ℚ) * MAX_GAP_COEFFICIENT) := by
    unfold jsRound MAX_GAP_COEFFICIENT
    apply Int.le_floor.mpr
    have : (0 : ℚ) ≤ (m : ℚ) := by exact_mod_cast hminGap0
    linarith
  have hbounds := getRandomNum_bounds m (jsRound ((m : ℚ) * MAX_GAP_COEFFICIENT)) r hmaxGap h0 h1
  have hgap : getGap width typeMinGap gapCoefficient speed r =
      getRandomNum m (jsRound ((m : ℚ) * MAX_GAP_COEFFICIENT)) r := by
    unfold getGap
    rw [← hm]
  refine ⟨?_, ?_, ?_⟩
  · rw [hgap]; exact hbounds.1
  · rw [hgap]; exact hbounds.2
  · have hle : getGap width typeMinGap gapCoefficient speed r ≤
        jsRound ((m : ℚ) * MAX_GAP_COEFFICIENT) := by rw [hgap]; exact hbounds.2
    have hfl : (jsRound ((m : ℚ) * MAX_GAP_COEFFICIENT) : ℚ) ≤
        (m : ℚ) * MAX_GAP_COEFFICIENT + 1 / 2 := by
      unfold jsRound
      exact Int.floor_le _
    have hcast : (getGap width typeMinGap gapCoefficient speed r : ℚ) ≤
        (jsRound ((m : ℚ) * MAX_GAP_COEFFICIENT) : ℚ) := by exact_mod_cast hle
    have h32 : MAX_GAP_COEFFICIENT = 3 / 2 := rfl
    rw [h32] at hfl hcast
    linarith

/-- C2 witness: the spec's own scenario — `width = 17`, `speed = 6`,
`type.minGap = 120`, `gapCoefficient = 0.6` gives `minGap = 174`; with the
draw `r = 0` the gap is 174, inside `[174, 261]`. -/
theorem getGap_range_witness :
    (0 : ℚ) ≤ 0 ∧ (0 : ℚ) < 1 ∧ (0 : ℚ) ≤ 17 * 6 + 120 * (3 / 5) ∧
    jsRound (17 * 6 + 120 * (3 / 5)) ≤ getGap 17 120 (3 / 5) 6 0 ∧
    getGap 17 120 (3 / 5) 6 0 ≤
      jsRound ((jsRound (17 * 6 + 120 * (3 / 5)) : ℚ) * MAX_GAP_COEFFICIENT) := by
  have h := getGap_range 17 120 (3 / 5) 6 0 (by norm_num) (by norm_num) (by norm_num)
  exact ⟨by norm_num, by norm_num, by norm_num, h.1, h.2.1⟩

/-- C9: `LoadTimeData.getValue(id)` throws an assertion error exactly when
the backing data is unset or `id` has no defined value, and otherwise
returns the stored value unchanged; re-setting `loadTimeData.data` when it
is already set throws an assertion error and leaves the stored data
unchanged. -/
theorem loadTimeData_getValue_setData_spec :
    (∀ (V : Type) (ltd : LoadTimeData V) (id : String),
      (∃ e, ltd.getValue id = Except.error e) ↔
        (ltd.data_ = none ∨ (ltd.data_.getD []).lookup id = none)) ∧
    (∀ (V : Type) (ltd : LoadTimeData V) (id : String) (d : List (String × V)) (v : V),
      ltd.data_ = some d → d.lookup id = some v → ltd.getValue id = Except.ok v) ∧
    (∀ (V : Type) (ltd : LoadTimeData V) (d value : List (String × V)),
      ltd.data_ = some d →
        (ltd.setData value).1 = ltd ∧ (ltd.setData value).2.isSome = true) := by
  refine ⟨?_, ?_, ?_⟩
  · intro V ltd id
    cases h : ltd.data_ with
    | none => simp [LoadTimeData.getValue, h]
    | some d =>
      cases hl : d.lookup id with
      | none => simp [LoadTimeData.getValue, h, hl]
      | some v => simp [LoadTimeData.getValue, h, hl]
  · intro V ltd id d v hd hv
    simp [LoadTimeData.getValue, hd, hv]
  · intro V ltd d value hd
    simp [LoadTimeData.setData, hd]

/-- C9 witness: a store holding `title ↦ 7` returns the stored value, and
re-setting it leaves it unchanged while reporting the assertion. -/
theorem loadTimeData_spec_witness :
    (({ data_ := some [("title", 7)] } : LoadTimeData ℕ).getValue "title" = Except.ok 7) ∧
    (({ data_ := some [("title", 7)] } : LoadTimeData ℕ).setData [("other", 1)]).1 =
      { data_ := some [("title", 7)] } := by
  constructor
  · exact loadTimeData_getValue_setData_spec.2.1 ℕ _ "title" [("title", 7)] 7 rfl rfl
  · exact (loadTimeData_getValue_setData_spec.2.2 ℕ _ [("title", 7)] [("other", 1)] rfl).1

/-- C10: a single `changeDirection` keydown never sets `(dx, dy)` to the
exact reverse `(-dx, -dy)` of a nonzero current direction: the left/right
arrow is ignored while moving right/left and the up/down arrow is ignored
while moving down/up. -/
theorem changeDirection_no_reversal (dx dy keyPressed : ℤ) (h : ¬(dx = 0 ∧ dy = 0)) :
    changeDirection dx dy keyPressed ≠ (-dx, -dy) := by
  intro hEq
  unfold changeDirection at hEq
  split_ifs at hEq with h1 h2 h3 h4 <;>
    simp only [Prod.mk.injEq] at hEq <;> omega

/-- C10 witness: while moving right, pressing the left arrow does not
reverse the direction. -/
theorem changeDirection_no_reversal_witness :
    ¬((1 : ℤ) = 0 ∧ (0 : ℤ) = 0) ∧ changeDirection 1 0 37 ≠ (-1, -0) :=
  ⟨by decide, changeDirection_no_reversal 1 0 37 (by decide)⟩

theorem runnerTicks_speed_closed_form (deltaTime : ℚ) (n : ℕ) :
    (runnerTicks deltaTime n).currentSpeed =
      if n ≤ 7000 then 6 + (n : ℚ) / 1000 else 13 := by
  induction n with
  | zero => simp [runnerTicks, INITIAL_SPEED]
  | succ n ih =>
    have hstep : (runnerTicks deltaTime (n + 1)).currentSpeed =
        (if (runnerTicks deltaTime n).currentSpeed < MAX_SPEED then
          (runnerTicks deltaTime n).currentSpeed + ACCELERATION
        else (runnerTicks deltaTime n).currentSpeed) := rfl
    rw [hstep, ih]
    by_cases h : n ≤ 7000
    · rw [if_pos h]
      by_cases h7 : n = 7000
      · subst h7
        norm_num [MAX_SPEED]
      · have hlt : n < 7000 := lt_of_le_of_ne h h7
        have hq : (6 : ℚ) + (n : ℚ) / 1000 < MAX_SPEED := by
          unfold MAX_SPEED
          have : (n : ℚ) < 7000 := by exact_mod_cast hlt
          linarith
        rw [if_pos hq, if_pos (by omega : n + 1 ≤ 7000)]
        unfold ACCELERATION
        push_cast
        ring
    · rw [if_neg h]
      have h13 : ¬((13 : ℚ) < MAX_SPEED) := by norm_num [MAX_SPEED]
      rw [if_neg h13, if_neg (by omega : ¬(n + 1 ≤ 7000))]

/-- C4: on a collision-free tick the game loop strictly increases the
distance score (`distanceRan += currentSpeed * deltaTime / msPerFrame`) and,
while below `MAX_SPEED`, adds the acceleration constant to the current
speed; iterating from the initial speed 6 the current speed never exceeds
`MAX_SPEED = 13`, and after 1000 collision-free ticks of 16.6 ms the speed
is 7 < 13. -/
theorem runner_speed_ramp_spec :
    (∀ (st : RunnerTickState) (deltaTime : ℚ), 0 < deltaTime → 0 < st.currentSpeed →
      st.distanceRan < (runnerUpdateNoCollision st deltaTime).distanceRan) ∧
    (∀ (st : RunnerTickState) (deltaTime : ℚ), st.currentSpeed < MAX_SPEED →
      (runnerUpdateNoCollision st deltaTime).currentSpeed =
        st.currentSpeed + ACCELERATION) ∧
    (∀ (deltaTime : ℚ) (n : ℕ), (runnerTicks deltaTime n).currentSpeed ≤ MAX_SPEED) ∧
    ((runnerTicks (83 / 5) 1000).currentSpeed = 7 ∧ (7 : ℚ) < MAX_SPEED) := by
  refine ⟨?_, ?_, ?_, ?_, ?_⟩
  · intro st deltaTime hdt hs
    show st.distanceRan < st.distanceRan + st.currentSpeed * deltaTime / runnerMsPerFrame
    have hms : (0 : ℚ) < runnerMsPerFrame := by norm_num [runnerMsPerFrame]
    have : 0 < st.currentSpeed * deltaTime / runnerMsPerFrame := by positivity
    linarith
  · intro st deltaTime hlt
    show (if st.currentSpeed < MAX_SPEED then st.currentSpeed + ACCELERATION
      else st.currentSpeed) = st.currentSpeed + ACCELERATION
    rw [if_pos hlt]
  · intro deltaTime n
    rw [runnerTicks_speed_closed_form]
    by_cases h : n ≤ 7000
    · rw [if_pos h]
      unfold MAX_SPEED
      have : (n : ℚ) ≤ 7000 := by exact_mod_cast h
      linarith
    · rw [if_neg h]
      norm_num [MAX_SPEED]
  · rw [runnerTicks_speed_closed_form]
    norm_num
  · norm_num [MAX_SPEED]

/-- C4 witness: one 16.6 ms collision-free tick from distance 0 and speed 6
strictly increases the distance and raises the speed to `6 + ACCELERATION`. -/
theorem runner_speed_ramp_witness :
    ((0 : ℚ) < 83 / 5 ∧ (0 : ℚ) < 6 ∧ (6 : ℚ) < MAX_SPEED) ∧
    (⟨0, 6⟩ : RunnerTickState).distanceRan <
      (runnerUpdateNoCollision ⟨0, 6⟩ (83 / 5)).distanceRan ∧
    (runnerUpdateNoCollision ⟨0, 6⟩ (83 / 5)).currentSpeed = 6 + ACCELERATION :=
  ⟨⟨by norm_num, by norm_num, by norm_num [MAX_SPEED]⟩,
   runner_speed_ramp_spec.1 ⟨0, 6⟩ (83 / 5) (by norm_num) (by norm_num),
   runner_speed_ramp_spec.2.1 ⟨0, 6⟩ (83 / 5) (by norm_num [MAX_SPEED])⟩

theorem findSome?_isSome_iff {α β : Type} (f : α → Option β) (l : List α) :
    (l.findSome? f).isSome = true ↔ ∃ x ∈ l, (f x).isSome = true := by
  induction l with
  | nil => simp [List.findSome?]
  | cons a as ih =>
    cases h : f a with
    | none => simp [List.findSome?_cons, h, ih]
    | some b => simp [List.findSome?_cons, h]

/-- C1: `checkForCollision` reports a collision (returns a box pair) exactly
when the two outer bounding boxes — each inset by 1 unit on every side —
overlap under the axis-aligned rectangle test AND some t-rex sub-box and
some obstacle sub-box, each translated by its owner's inset outer-box
origin, overlap; in particular a collision is reported only when the coarse
outer-box check passes, and the fine check is evaluated only inside that
branch. -/
theorem checkForCollision_spec (obstacle : ObstacleState) (tRex : TrexState)
    (altGameModeEnabled : Bool) (altCollisionBoxes : List CollisionBox) :
    (checkForCollision obstacle tRex altGameModeEnabled altCollisionBoxes).isSome = true ↔
      (boxCompare (trexOuterBox tRex) (obstacleOuterBox obstacle) = true ∧
       ∃ tBox ∈ trexSubBoxes altGameModeEnabled altCollisionBoxes tRex,
         ∃ oBox ∈ obstacle.collisionBoxes,
           boxCompare (createAdjustedCollisionBox tBox (trexOuterBox tRex))
             (createAdjustedCollisionBox oBox (obstacleOuterBox obstacle)) = true) := by
  unfold checkForCollision
  by_cases hc : boxCompare (trexOuterBox tRex) (obstacleOuterBox obstacle) = true
  · rw [if_pos hc]
    rw [findSome?_isSome_iff]
    constructor
    · rintro ⟨tBox, htB, hin⟩
      rw [findSome?_isSome_iff] at hin
      obtain ⟨oBox, hoB, hif⟩ := hin
      refine ⟨hc, tBox, htB, oBox, hoB, ?_⟩
      by_cases hcr : boxCompare (createAdjustedCollisionBox tBox (trexOuterBox tRex))
          (createAdjustedCollisionBox oBox (obstacleOuterBox obstacle)) = true
      · exact hcr
      · simp only [hcr, if_false, Option.isSome_none] at hif
        exact absurd hif (by simp)
    · rintro ⟨-, tBox, htB, oBox, hoB, hcr⟩
      refine ⟨tBox, htB, ?_⟩
      rw [findSome?_isSome_iff]
      refine ⟨oBox, hoB, ?_⟩
      simp only [hcr, if_true, Option.isSome_some]
  · rw [if_neg hc]
    simp [hc]

theorem addNewObstacle_accept (types : List ObstacleTypeConfig)
    (altEnabled altActive : Bool) (currentSpeed : ℚ) (rnd : ℕ → ℕ) :
    ∀ (fuel k : ℕ) (st st' : HorizonState) (t : String) (k' : ℕ),
      addNewObstacle types altEnabled altActive currentSpeed rnd fuel k st =
        some (st', t, k') →
      st'.obstacles.length = st.obstacles.length + 1 ∧
      st'.obstacleHistory = (t :: st.obstacleHistory).take 2 ∧
      (0 < obstacleCountOf types altEnabled altActive →
        duplicateObstacleCheck st t = false) := by
  intro fuel
  induction fuel with
  | zero =>
    intro k st st' t k' h
    exact absurd h (by simp [addNewObstacle])
  | succ fuel ih =>
    intro k st st' t k' h
    rw [addNewObstacle] at h
    split at h
    · exact absurd h (by simp)
    · rename_i obstacleType hidx
      split at h
      · exact ih _ st st' t k' h
      · rename_i hrej
        simp only [Option.some.injEq, Prod.mk.injEq] at h
        obtain ⟨hst', ht, hk'⟩ := h
        subst hst' ht
        refine ⟨by simp, ?_, ?_⟩
        · show (if (obstacleType.type :: st.obstacleHistory).length > 1 then
              (obstacleType.type :: st.obstacleHistory).take MAX_OBSTACLE_DUPLICATION
            else obstacleType.type :: st.obstacleHistory) =
              (obstacleType.type :: st.obstacleHistory).take 2
          by_cases hl : (obstacleType.type :: st.obstacleHistory).length > 1
          · rw [if_pos hl]; rfl
          · rw [if_neg hl]
            have : st.obstacleHistory = [] := by
              cases hh : st.obstacleHistory with
              | nil => rfl
              | cons a as => rw [hh] at hl; simp at hl
            rw [this]
            rfl
        · intro hcount
          by_cases hdup : duplicateObstacleCheck st obstacleType.type = true
          · exfalso
            apply hrej
            simp only [Bool.or_eq_true, Bool.and_eq_true, decide_eq_true_eq]
            exact Or.inl ⟨hcount, hdup⟩
          · simpa using hdup

theorem addNewObstacle_all_rejected (types : List ObstacleTypeConfig)
    (altEnabled altActive : Bool) (currentSpeed : ℚ) (rnd : ℕ → ℕ)
    (hall : ∀ ty ∈ types, currentSpeed < ty.minSpeed) :
    ∀ (fuel k : ℕ) (st : HorizonState),
      addNewObstacle types altEnabled altActive currentSpeed rnd fuel k st = none := by
  intro fuel
  induction fuel with
  | zero => intro k st; rfl
  | succ fuel ih =>
    intro k st
    rw [addNewObstacle]
    split
    · rfl
    · rename_i obstacleType hidx
      rw [if_pos]
      · exact ih _ st
      · simp only [Bool.or_eq_true, Bool.and_eq_true, decide_eq_true_eq]
        refine Or.inr (hall obstacleType ?_)
        obtain ⟨hlt, he⟩ := List.getElem?_eq_some.mp hidx
        exact he ▸ List.getElem_mem hlt

/-- C8: the spawner retries until an acceptable type is found with no retry
limit — whenever `addNewObstacle` returns, exactly one obstacle has been
appended to the horizon's list, and when the constraints are contradictory
(every type's `minSpeed` exceeds the current speed) it never returns, for
any amount of fuel. -/
theorem addNewObstacle_retry_spec :
    (∀ (types : List ObstacleTypeConfig) (altEnabled altActive : Bool)
        (currentSpeed : ℚ) (rnd : ℕ → ℕ) (fuel k : ℕ) (st st' : HorizonState)
        (t : String) (k' : ℕ),
      addNewObstacle types altEnabled altActive currentSpeed rnd fuel k st =
        some (st', t, k') →
      st'.obstacles.length = st.obstacles.length + 1) ∧
    (∀ (types : List ObstacleTypeConfig) (altEnabled altActive : Bool)
        (currentSpeed : ℚ) (rnd : ℕ → ℕ),
      (∀ ty ∈ types, currentSpeed < ty.minSpeed) →
      ∀ (fuel k : ℕ) (st : HorizonState),
        addNewObstacle types altEnabled altActive currentSpeed rnd fuel k st = none) :=
  ⟨fun types altEnabled altActive currentSpeed rnd fuel k st st' t k' h =>
      (addNewObstacle_accept types altEnabled altActive currentSpeed rnd
        fuel k st st' t k' h).1,
   fun types altEnabled altActive currentSpeed rnd hall =>
      addNewObstacle_all_rejected types altEnabled altActive currentSpeed rnd hall⟩

/-- C8 witness: at speed 6 one call appends exactly one obstacle, and at a
speed below every type's `minSpeed` the call never returns. -/
theorem addNewObstacle_retry_witness :
    (⟨[⟨"CACTUS_SMALL", 17, 120, 0⟩], ["CACTUS_SMALL"]⟩ : HorizonState).obstacles.length =
      (⟨[], []⟩ : HorizonState).obstacles.length + 1 ∧
    addNewObstacle obstacleTypes false false (-1) (fun _ => 0) 5 0 ⟨[], []⟩ = none :=
  ⟨addNewObstacle_retry_spec.1 obstacleTypes false false 6 (fun _ => 0) 1 0
      ⟨[], []⟩ ⟨[⟨"CACTUS_SMALL", 17, 120, 0⟩], ["CACTUS_SMALL"]⟩ "CACTUS_SMALL" 1
      (by decide),
   addNewObstacle_retry_spec.2 obstacleTypes false false (-1) (fun _ => 0)
      (by intro ty hty; fin_cases hty <;> norm_num [obstacleTypes]) 5 0 ⟨[], []⟩⟩

theorem hasTripleRun_short (l : List String) (h : l.length ≤ 2) :
    hasTripleRun l = false := by
  match l with
  | [] => rfl
  | [a] => rfl
  | [a, b] => rfl
  | a :: b :: c :: rest => simp at h

theorem duplicateObstacleCheck_eq_true_iff (st : HorizonState) (t : String)
    (hlen : st.obstacleHistory.length ≤ 2) :
    duplicateObstacleCheck st t = true ↔ st.obstacleHistory = [t, t] := by
  unfold duplicateObstacleCheck MAX_OBSTACLE_DUPLICATION
  match hh : st.obstacleHistory with
  | [] => simp
  | [a] =>
    by_cases ha : a = t <;> simp [List.foldl, ha]
  | [a, b] =>
    by_cases ha : a = t <;> by_cases hb : b = t <;> simp [List.foldl, ha, hb]
  | a :: b :: c :: rest =>
    rw [hh] at hlen
    simp at hlen

theorem spawnSequence_no_triple (types : List ObstacleTypeConfig)
    (altEnabled altActive : Bool) (currentSpeed : ℚ) (rnd : ℕ → ℕ) (fuel : ℕ)
    (hcount : 0 < obstacleCountOf types altEnabled altActive) :
    ∀ (n k : ℕ) (st : HorizonState), st.obstacleHistory.length ≤ 2 →
      hasTripleRun (st.obstacleHistory.reverse ++
        spawnSequence types altEnabled altActive currentSpeed rnd fuel n k st) = false := by
  intro n
  induction n with
  | zero =>
    intro k st hlen
    show hasTripleRun (st.obstacleHistory.reverse ++ []) = false
    rw [List.append_nil]
    exact hasTripleRun_short _ (by simpa using hlen)
  | succ n ih =>
    intro k st hlen
    show hasTripleRun (st.obstacleHistory.reverse ++
      (match addNewObstacle types altEnabled altActive currentSpeed rnd fuel k st with
        | none => []
        | some (st', t, k') =>
          t :: spawnSequence types altEnabled altActive currentSpeed rnd fuel n k' st')) = false
    cases hadd : addNewObstacle types altEnabled altActive currentSpeed rnd fuel k st with
    | none =>
      rw [List.append_nil]
      exact hasTripleRun_short _ (by simpa using hlen)
    | some res =>
      obtain ⟨st', t, k'⟩ := res
      obtain ⟨-, hhist, hdup⟩ :=
        addNewObstacle_accept types altEnabled altActive currentSpeed rnd fuel k st st' t k' hadd
      have hdup' := hdup hcount
      have hlen' : st'.obstacleHistory.length ≤ 2 := by
        rw [hhist]
        exact List.length_take_le _ _
      have htail := ih k' st' hlen'
      match hh : st.obstacleHistory with
      | [] =>
        rw [hh] at hhist
        rw [hhist] at htail
        simpa using htail
      | [a] =>
        rw [hh] at hhist
        rw [hhist] at htail
        simpa using htail
      | [a, b] =>
        rw [hh] at hhist
        rw [hhist] at htail
        have hne : ¬(a = t ∧ b = t) := by
          rintro ⟨ha, hb⟩
          have htrue : duplicateObstacleCheck st t = true :=
            (duplicateObstacleCheck_eq_true_iff st t (by rw [hh]; simp)).mpr
              (by rw [hh, ha, hb])
          rw [htrue] at hdup'
          simp at hdup'
        have htail' : hasTripleRun (a :: t ::
            spawnSequence types altEnabled altActive currentSpeed rnd fuel n k' st') = false := by
          simpa using htail
        show hasTripleRun (b :: a :: t ::
          spawnSequence types altEnabled altActive currentSpeed rnd fuel n k' st') = false
        rw [hasTripleRun]
        rw [htail']
        simp only [Bool.or_false, Bool.and_eq_false_iff]
        by_cases hba : b = a
        · by_cases hat : a = t
          · exact absurd ⟨hat, hba ▸ hat⟩ hne
          · right; simpa using hat
        · left; simpa using hba
      | a :: b :: c :: rest =>
        rw [hh] at hlen
        simp at hlen

/-- C3: in every sequence of obstacles produced by successive spawner calls
starting from the initial horizon state (with the game's obstacle type
table), no type appears more than 2 times consecutively: a candidate equal
to both entries of the bounded history buffer is rejected and redrawn. -/
theorem spawner_no_type_thrice (altEnabled altActive : Bool) (currentSpeed : ℚ)
    (rnd : ℕ → ℕ) (fuel n k : ℕ) :
    hasTripleRun (spawnSequence obstacleTypes altEnabled altActive currentSpeed rnd
      fuel n k ⟨[], []⟩) = false := by
  have hcount : 0 < obstacleCountOf obstacleTypes altEnabled altActive := by
    cases altEnabled <;> cases altActive <;> decide
  have h := spawnSequence_no_triple obstacleTypes altEnabled altActive currentSpeed rnd
    fuel hcount n k ⟨[], []⟩ (by simp)
  simpa using h

theorem rejectSample_not_bad (tileCount : ℤ) (rnd : ℕ → Cell) (bad : Cell → Bool) :
    ∀ (fuel k : ℕ) (c : Cell) (k' : ℕ),
      rejectSample tileCount rnd bad fuel k = some (c, k') → bad c = false := by
  intro fuel
  induction fuel with
  | zero => intro k c k' h; exact absurd h (by simp [rejectSample])
  | succ fuel ih =>
    intro k c k' h
    rw [rejectSample] at h
    by_cases hb : bad (sampleCell tileCount (rnd k)) = true
    · rw [if_pos hb] at h
      exact ih _ _ _ h
    · rw [if_neg hb] at h
      simp only [Option.some.injEq, Prod.mk.injEq] at h
      obtain ⟨hc, -⟩ := h
      rw [hc] at hb
      simpa using hb

theorem genObstaclesFrom_good (tileCount : ℤ) (rnd : ℕ → Cell) (snake : List Cell)
    (food : Cell) (fuel : ℕ) :
    ∀ (n k : ℕ) (acc obs : List Cell) (k' : ℕ),
      genObstaclesFrom tileCount rnd snake food fuel n k acc = some (obs, k') →
      (∀ c ∈ acc, c ∉ snake ∧ c ≠ food) → acc.Pairwise (· ≠ ·) →
      (∀ c ∈ obs, c ∉ snake ∧ c ≠ food) ∧ obs.Pairwise (· ≠ ·) := by
  intro n
  induction n with
  | zero =>
    intro k acc obs k' h hacc hpw
    rw [genObstaclesFrom] at h
    simp only [Option.some.injEq, Prod.mk.injEq] at h
    obtain ⟨hobs, -⟩ := h
    exact hobs ▸ ⟨hacc, hpw⟩
  | succ n ih =>
    intro k acc obs k' h hacc hpw
    rw [genObstaclesFrom] at h
    cases hr : rejectSample tileCount rnd (obstacleBad snake food acc) fuel k with
    | none => rw [hr] at h; exact absurd h (by simp)
    | some res =>
      obtain ⟨c, k1⟩ := res
      rw [hr] at h
      have hbad := rejectSample_not_bad tileCount rnd _ fuel k c k1 hr
      simp only [obstacleBad, Bool.or_eq_false_iff, List.any_eq_false,
        decide_eq_true_eq, decide_eq_false_iff_not] at hbad
      obtain ⟨⟨hsn, hfo⟩, hob⟩ := hbad
      refine ih k1 (acc ++ [c]) obs k' h ?_ ?_
      · intro x hx
        rcases List.mem_append.mp hx with hx | hx
        · exact hacc x hx
        · have : x = c := by simpa using hx
          subst this
          exact ⟨fun hmem => hsn x hmem rfl, hfo⟩

      · rw [List.pairwise_append]
        refine ⟨hpw, by simp, ?_⟩
        intro a ha b hb
        have hb' : b = c := by simpa using hb
        subst hb'
        intro hab
        exact hob a ha hab

/-- C7 counterexample: after a game over, the reset food is placed by a
single unchecked draw; with a stream whose first draw is `(10, 10)` the new
food lands exactly on the reset snake `[(10, 10)]` (the subsequent obstacle
draws all succeed), contradicting the claim that every food placement
avoids the snake. -/
theorem gameOver_reset_food_on_snake :
    tickFoodOnSnake (gameOverStep 20 6
      (fun k => if k = 0 then ((10 : ℤ), (10 : ℤ)) else ((k : ℤ) - 1, 0)) 0
      [((10 : ℤ), (10 : ℤ))]) = true := by
  decide

theorem gameOverStep_ne_ok (tileCount : ℤ) (fuel : ℕ) (rnd : ℕ → Cell) (k : ℕ)
    (s : List Cell) (post : SnakeState) :
    gameOverStep tileCount fuel rnd k s ≠ SnakeTick.ok post := by
  simp only [gameOverStep]
  cases h : generateObstacles tileCount rnd [(10, 10)] (sampleCell tileCount (rnd k))
      fuel (k + 1) with
  | none => simp [h]
  | some res =>
    obtain ⟨obs, k'⟩ := res
    simp [h]

/-- C7 (amended): every rejection-sampled spawn lands on a free cell — the
obstacles generated by `generateObstacles` avoid the snake, the food, and
each other; the food respawned after being eaten avoids the whole moved
snake and the obstacles; and the obstacles generated by the game-over reset
avoid the reset snake and the reset food.  (The reset food itself is placed
by a single unchecked draw and may land on the snake, so the original
claim's "every food placement" fails there.) -/
theorem snake_spawn_free_cells :
    (∀ (tileCount : ℤ) (rnd : ℕ → Cell) (snake : List Cell) (food : Cell)
        (fuel k : ℕ) (obs : List Cell) (k' : ℕ),
      generateObstacles tileCount rnd snake food fuel k = some (obs, k') →
      (∀ c ∈ obs, c ∉ snake ∧ c ≠ food) ∧ obs.Pairwise (· ≠ ·)) ∧
    (∀ (tileCount : ℤ) (fuel : ℕ) (rnd : ℕ → Cell) (k : ℕ) (st : SnakeState)
        (h0 : Cell) (rest : List Cell) (post : SnakeState),
      st.snake = h0 :: rest →
      (h0.1 + st.dx, h0.2 + st.dy) = st.food →
      snakeTick tileCount fuel rnd k st = SnakeTick.ok post →
      post.food ∉ post.snake ∧ post.food ∉ post.obstacles) ∧
    (∀ (tileCount : ℤ) (fuel : ℕ) (rnd : ℕ → Cell) (k : ℕ) (s : List Cell)
        (snakeAtDetection : List Cell) (post : SnakeState),
      gameOverStep tileCount fuel rnd k s = SnakeTick.gameOverAt snakeAtDetection post →
      (∀ c ∈ post.obstacles, c ∉ post.snake ∧ c ≠ post.food) ∧
        post.obstacles.Pairwise (· ≠ ·)) := by
  refine ⟨?_, ?_, ?_⟩
  · intro tileCount rnd snake food fuel k obs k' h
    exact genObstaclesFrom_good tileCount rnd snake food fuel 5 k [] obs k' h
      (by simp) (by simp)
  · intro tileCount fuel rnd k st h0 rest post hsnake hfood h
    obtain ⟨sn, fo, ob, sdx, sdy, sc, gs, fm, sm, wa⟩ := st
    simp only at hsnake hfood
    subst hsnake
    simp only [snakeTick] at h
    by_cases hoob : (decide (h0.1 + sdx < 0) || decide (h0.1 + sdx ≥ tileCount) ||
        decide (h0.2 + sdy < 0) || decide (h0.2 + sdy ≥ tileCount)) = true
    · rw [if_pos hoob] at h
      by_cases hwa : wa = true
      · rw [if_pos hwa] at h
        exact absurd h (by simp)
      · rw [if_neg hwa] at h
        exact absurd h (gameOverStep_ne_ok _ _ _ _ _ _)
    · rw [if_neg hoob] at h
      by_cases hobst : (ob.any fun obstacle =>
          decide (obstacle = (h0.1 + sdx, h0.2 + sdy))) = true
      · rw [if_pos hobst] at h
        exact absurd h (gameOverStep_ne_ok _ _ _ _ _ _)
      · rw [if_neg hobst, if_pos hfood] at h
        cases hr : rejectSample tileCount rnd
            (fun c => (((h0.1 + sdx, h0.2 + sdy) :: h0 :: rest).any
                (fun segment => decide (segment = c)) ||
              ob.any (fun segment => decide (segment = c)))) fuel k with
        | none =>
          simp only [hr] at h
          exact absurd h (by simp)
        | some res =>
          obtain ⟨newFood, k1⟩ := res
          simp only [hr] at h
          have hbad := rejectSample_not_bad tileCount rnd _ fuel k newFood k1 hr
          simp only [Bool.or_eq_false_iff, List.any_eq_false, decide_eq_true_eq] at hbad
          obtain ⟨hsn, hob⟩ := hbad
          by_cases hself : ((List.drop 1 ((h0.1 + sdx, h0.2 + sdy) :: h0 :: rest)).any
              fun segment => decide (segment = (h0.1 + sdx, h0.2 + sdy))) = true
          · rw [if_pos hself] at h
            exact absurd h (gameOverStep_ne_ok _ _ _ _ _ _)
          · rw [if_neg hself] at h
            simp only [SnakeTick.ok.injEq] at h
            subst h
            refine ⟨?_, ?_⟩
            · intro hmem
              exact hsn _ hmem rfl
            · intro hmem
              exact hob _ hmem rfl
  · intro tileCount fuel rnd k s snakeAtDetection post h
    simp only [gameOverStep] at h
    cases hg : generateObstacles tileCount rnd [(10, 10)] (sampleCell tileCount (rnd k))
        fuel (k + 1) with
    | none =>
      simp only [hg] at h
      exact absurd h (by simp)
    | some res =>
      obtain ⟨obs, k2⟩ := res
      simp only [hg, SnakeTick.gameOverAt.injEq] at h
      obtain ⟨-, hpost⟩ := h
      subst hpost
      have := genObstaclesFrom_good tileCount rnd [(10, 10)]
        (sampleCell tileCount (rnd k)) fuel 5 (k + 1) [] obs k2 hg (by simp) (by simp)
      simpa using this

/-- C7 witness: with a concrete stream, start-of-game obstacle generation
yields five cells avoiding the snake, the food and each other, and a tick
that eats the food respawns it off the snake and off the obstacles. -/
theorem snake_spawn_free_cells_witness :
    ((∀ c ∈ [((0 : ℤ), (0 : ℤ)), (1, 0), (2, 0), (3, 0), (4, 0)],
        c ∉ [((10 : ℤ), (10 : ℤ))] ∧ c ≠ (5, 5)) ∧
      ([((0 : ℤ), (0 : ℤ)), (1, 0), (2, 0), (3, 0), (4, 0)] : List Cell).Pairwise (· ≠ ·)) ∧
    (((1 : ℤ), (1 : ℤ)) ∉ [((5 : ℤ), (6 : ℤ)), (5, 5)] ∧
      ((1 : ℤ), (1 : ℤ)) ∉ ([] : List Cell)) :=
  ⟨snake_spawn_free_cells.1 20 (fun k => ((k : ℤ), 0)) [(10, 10)] (5, 5) 6 0
      [(0, 0), (1, 0), (2, 0), (3, 0), (4, 0)] 5 (by decide),
   snake_spawn_free_cells.2.1 20 6 (fun _ => ((1 : ℤ), (1 : ℤ))) 0
      ⟨[(5, 5)], (5, 6), [], 0, 1, 0, 100, false, false, false⟩ (5, 5) []
      ⟨[(5, 6), (5, 5)], (1, 1), [], 0, 1, 10, 100, false, false, false⟩
      rfl (by decide) (by decide)⟩

/-- C5 (code bug): with wraparound enabled and the head one step out of
bounds, the source executes `head = wrapAround(head)` on the `const`-bound
`head`, which throws a `TypeError`, so the tick aborts instead of continuing
with the wrapped head; the `wrapAround` function itself would have mapped
the head `(20, 10)` on the 20-grid back to `(0, 10)` by modulo. -/
theorem wraparound_tick_throws :
    snakeTick 20 10 (fun _ => ((0 : ℤ), (0 : ℤ))) 0
      { snake := [(19, 10)], food := (0, 0), obstacles := [], dx := 1, dy := 0,
        score := 0, gameSpeed := 100, isFastMode := false, isSlowMode := false,
        isWrapAround := true } = SnakeTick.error ∧
    wrapAround 20 (20, 10) = (0, 10) ∧
    0 ≤ (wrapAround 20 (20, 10)).1 ∧ (wrapAround 20 (20, 10)).1 < 20 ∧
    0 ≤ (wrapAround 20 (20, 10)).2 ∧ (wrapAround 20 (20, 10)).2 < 20 := by
  refine ⟨by decide, by decide, by decide, by decide, by decide, by decide⟩

/-- C6: a tick whose new head lies outside the grid with wraparound disabled
immediately invokes `gameOver()` with the snake still in its pre-tick
configuration (the move is never applied; `gameOver()` then resets the
game); a new in-grid head that misses the food and the obstacles but
coincides with a body segment of the moved snake invokes `gameOver()`
whatever the wraparound flag; and `gameOver()` never yields a continuing
(`ok`) tick. -/
theorem snake_tick_game_over_spec :
    (∀ (tileCount : ℤ) (fuel : ℕ) (rnd : ℕ → Cell) (k : ℕ) (st : SnakeState)
        (h0 : Cell) (rest : List Cell),
      st.snake = h0 :: rest → st.isWrapAround = false →
      (h0.1 + st.dx < 0 ∨ h0.1 + st.dx ≥ tileCount ∨
        h0.2 + st.dy < 0 ∨ h0.2 + st.dy ≥ tileCount) →
      snakeTick tileCount fuel rnd k st = gameOverStep tileCount fuel rnd k st.snake) ∧
    (∀ (tileCount : ℤ) (fuel : ℕ) (rnd : ℕ → Cell) (k : ℕ) (st : SnakeState)
        (h0 : Cell) (rest : List Cell),
      st.snake = h0 :: rest →
      ¬(h0.1 + st.dx < 0 ∨ h0.1 + st.dx ≥ tileCount ∨
        h0.2 + st.dy < 0 ∨ h0.2 + st.dy ≥ tileCount) →
      (h0.1 + st.dx, h0.2 + st.dy) ∉ st.obstacles →
      (h0.1 + st.dx, h0.2 + st.dy) ≠ st.food →
      (h0.1 + st.dx, h0.2 + st.dy) ∈ st.snake.dropLast →
      snakeTick tileCount fuel rnd k st =
        gameOverStep tileCount fuel rnd k
          ((h0.1 + st.dx, h0.2 + st.dy) :: st.snake.dropLast)) ∧
    (∀ (tileCount : ℤ) (fuel : ℕ) (rnd : ℕ → Cell) (k : ℕ) (s : List Cell)
        (post : SnakeState),
      gameOverStep tileCount fuel rnd k s ≠ SnakeTick.ok post) := by
  refine ⟨?_, ?_, fun tileCount fuel rnd k s post => gameOverStep_ne_ok _ _ _ _ _ _⟩
  · intro tileCount fuel rnd k st h0 rest hsnake hwrap hoob
    obtain ⟨sn, fo, ob, sdx, sdy, sc, gs, fm, sm, wa⟩ := st
    simp only at hsnake hwrap hoob
    subst hsnake hwrap
    simp only [snakeTick]
    have hb : (decide (h0.1 + sdx < 0) || decide (h0.1 + sdx ≥ tileCount) ||
        decide (h0.2 + sdy < 0) || decide (h0.2 + sdy ≥ tileCount)) = true := by
      simp only [Bool.or_eq_true, decide_eq_true_eq]
      tauto
    rw [if_pos hb]
    simp
  · intro tileCount fuel rnd k st h0 rest hsnake hoob hobst hfood hself
    obtain ⟨sn, fo, ob, sdx, sdy, sc, gs, fm, sm, wa⟩ := st
    simp only at hsnake hoob hobst hfood hself
    subst hsnake
    simp only [snakeTick]
    have hb : (decide (h0.1 + sdx < 0) || decide (h0.1 + sdx ≥ tileCount) ||
        decide (h0.2 + sdy < 0) || decide (h0.2 + sdy ≥ tileCount)) = false := by
      simp only [Bool.or_eq_false_iff, decide_eq_false_iff_not]
      push_neg at hoob
      exact ⟨⟨⟨by simpa using hoob.1, by simpa using hoob.2.1⟩,
        by simpa using hoob.2.2.1⟩, by simpa using hoob.2.2.2⟩
    rw [hb]
    have hobB : (ob.any fun obstacle =>
        decide (obstacle = (h0.1 + sdx, h0.2 + sdy))) = false := by
      rw [List.any_eq_false]
      intro x hx
      simp only [decide_eq_true_eq]
      intro heq
      exact hobst (heq ▸ hx)
    rw [hobB]
    simp only [Bool.false_eq_true, if_false]
    rw [if_neg hfood]
    have hdrop : ((h0.1 + sdx, h0.2 + sdy) :: h0 :: rest).dropLast =
        (h0.1 + sdx, h0.2 + sdy) :: (h0 :: rest).dropLast := by
      simp [List.dropLast]
    rw [hdrop]
    have hselfB : ((List.drop 1 ((h0.1 + sdx, h0.2 + sdy) :: (h0 :: rest).dropLast)).any
        fun segment => decide (segment = (h0.1 + sdx, h0.2 + sdy))) = true := by
      simp only [List.drop_one, List.tail_cons, List.any_eq_true, decide_eq_true_eq]
      exact ⟨_, hself, rfl⟩
    rw [if_pos hselfB]

/-- C6 witness: on the 20-grid, a head stepping off the right edge with
wraparound off enters `gameOver()` with the snake unmoved, and a head
biting a body segment enters `gameOver()` with wraparound on. -/
theorem snake_tick_game_over_witness :
    snakeTick 20 6 (fun _ => ((1 : ℤ), (1 : ℤ))) 0
      { snake := [(19, 10)], food := (0, 0), obstacles := [], dx := 1, dy := 0,
        score := 0, gameSpeed := 100, isFastMode := false, isSlowMode := false,
        isWrapAround := false } =
      gameOverStep 20 6 (fun _ => ((1 : ℤ), (1 : ℤ))) 0 [(19, 10)] ∧
    snakeTick 20 6 (fun _ => ((1 : ℤ), (1 : ℤ))) 0
      { snake := [(5, 5), (4, 5), (4, 4), (5, 4), (6, 4)], food := (0, 0),
        obstacles := [], dx := 0, dy := -1, score := 0, gameSpeed := 100,
        isFastMode := false, isSlowMode := false, isWrapAround := true } =
      gameOverStep 20 6 (fun _ => ((1 : ℤ), (1 : ℤ))) 0
        ((5, 4) :: [(5, 5), (4, 5), (4, 4), (5, 4)]) :=
  ⟨snake_tick_game_over_spec.1 20 6 (fun _ => ((1 : ℤ), (1 : ℤ))) 0
      _ (19, 10) [] rfl rfl (by decide),
   snake_tick_game_over_spec.2.1 20 6 (fun _ => ((1 : ℤ), (1 : ℤ))) 0
      _ (5, 5) [(4, 5), (4, 4), (5, 4), (6, 4)] rfl (by decide) (by decide)
      (by decide) (by decide)⟩
